import Mathlib

/-!
Shallow embedding of the DIG-Network/Block-Listener peer-protocol engine and
block-decoding pipeline, translated from the Rust sources:

  * crate/chia-generator-parser/src/parser.rs  (BlockParser and helpers)
  * src/peer.rs                                (PeerConnection, PeerSession)
  * src/peer_pool.rs                           (ChiaPeerPool, dispatcher, worker)

External libraries (clvmr, chia-consensus, sha2, websocket I/O) are modelled as
explicit oracle functions bundled in `ExternOracle`, and I/O event streams as
explicit lists, so that every embedded function is executable and all control
flow of the source is preserved.  Machine integers are Nat with explicit
`% 2 ^ w` where the source truncates; byte strings are `List Nat` (each entry a
byte value).
-/

/-- Hex digit character for a nibble, lowercase, as produced by hex::encode. -/
def hexDigit (n : Nat) : Char :=
  if n < 10 then Char.ofNat (48 + n) else Char.ofNat (87 + n)

/-- Model of hex::encode over a byte list: two lowercase hex digits per byte. -/
def hexEncode (bs : List Nat) : String :=
  String.mk (bs.foldr (fun b acc => hexDigit (b % 256 / 16) :: hexDigit (b % 16) :: acc) [])

/-- Model of clvmr::op_utils::u64_from_bytes - big-endian fold into a wrapping u64. -/
def u64_from_bytes (bs : List Nat) : Nat :=
  bs.foldl (fun r b => (r * 256 + b % 256) % 2 ^ 64) 0

/-- CLVM node (clvmr NodePtr contents): an atom of bytes or a pair. -/
inductive Node
  | atom (bytes : List Nat)
  | pair (left right : Node)
  deriving DecidableEq, Repr

/-- Error codes of chia_consensus::validation_error used by the parser. -/
inductive ErrorCode
  | InvalidCondition
  | InvalidParentId
  | InvalidCoinAmount
  deriving DecidableEq, Repr

/-- chia_consensus::validation_error::first - left element of a pair, error on an atom. -/
def first : Node → Except ErrorCode Node
  | .pair l _ => .ok l
  | .atom _ => .error .InvalidCondition

/-- chia_consensus::validation_error::rest - right element of a pair, error on an atom. -/
def rest : Node → Except ErrorCode Node
  | .pair _ r => .ok r
  | .atom _ => .error .InvalidCondition

/-- chia_consensus::validation_error::next - list step: a pair yields its head and
tail, the empty atom (nil) ends the list, a non-empty atom is an error. -/
def next : Node → Except ErrorCode (Option (Node × Node))
  | .pair l r => .ok (some (l, r))
  | .atom bs => if bs.isEmpty then .ok none else .error .InvalidCondition

/-- chia_consensus::validation_error::atom - the bytes of an atom, error (with the
supplied code) on a pair. -/
def atom (n : Node) (code : ErrorCode) : Except ErrorCode (List Nat)
  := match n with
  | .atom bs => .ok bs
  | .pair _ _ => .error code

/-- GeneratorParserError from crate/chia-generator-parser/src/error.rs. -/
inductive GeneratorParserError
  | InvalidBlockFormat (msg : String)
  | BufferTooShort (expected actual : Nat)
  | InvalidGeneratorBytecode (msg : String)
  | ClvmParsingError (msg : String)
  | ClvmExecutionError (msg : String)
  | SerializationError (msg : String)
  | HexDecodingError (msg : String)
  deriving DecidableEq, Repr

/-- CREATE_COIN condition entry (chia_consensus::conditions::NewCoin); only the
fields read by the parser are modelled. -/
structure NewCoin where
  puzzle_hash : List Nat
  amount : Nat
  deriving DecidableEq, Repr

/-- Per-spend conditions (chia_consensus::conditions::SpendConditions); only the
fields read by the parser (coin_id and create_coin) are modelled. -/
structure SpendConditions where
  coin_id : List Nat
  create_coin : List NewCoin
  deriving DecidableEq, Repr

/-- chia_consensus::conditions::SpendBundleConditions restricted to the `spends`
field, the only field the parser reads. -/
structure SpendBundleConditions where
  spends : List SpendConditions
  deriving DecidableEq, Repr

/-- SpendBundleConditions::default(): empty spends list. -/
def sbcDefault : SpendBundleConditions := { spends := [] }

/-- CoinInfo from crate/chia-generator-parser/src/types.rs: hex strings plus amount. -/
structure CoinInfo where
  parent_coin_info : String
  puzzle_hash : String
  amount : Nat
  deriving DecidableEq, Repr

/-- CoinInfo::new - hex-encodes the two 32-byte hashes. -/
def CoinInfo.new (parent_coin_info puzzle_hash : List Nat) (amount : Nat) : CoinInfo :=
  { parent_coin_info := hexEncode parent_coin_info
    puzzle_hash := hexEncode puzzle_hash
    amount := amount }

/-- CoinSpendInfo from crate/chia-generator-parser/src/types.rs. -/
structure CoinSpendInfo where
  coin : CoinInfo
  puzzle_reveal : List Nat
  solution : List Nat
  real_data : Bool
  parsing_method : String
  offset : Nat
  created_coins : List CoinInfo
  deriving DecidableEq, Repr

/-- chia_protocol::Coin - raw 32-byte hashes plus u64 amount. -/
structure Coin where
  parent_coin_info : List Nat
  puzzle_hash : List Nat
  amount : Nat
  deriving DecidableEq, Repr

/-- Fields of the reward-chain block read by the parser. -/
structure RewardChainBlock where
  height : Nat
  weight : Nat
  deriving DecidableEq, Repr

/-- Fields of the foliage transaction block read by the parser. -/
structure FoliageTransactionBlock where
  timestamp : Nat
  deriving DecidableEq, Repr

/-- Fields of the foliage read by the parser; the full streamable serialization
used for the header hash goes through the `foliageToBytes` oracle. -/
structure Foliage where
  prev_block_hash : List Nat
  deriving DecidableEq, Repr

/-- Fields of transactions_info read by the parser. -/
structure TransactionsInfo where
  reward_claims_incorporated : List Coin
  deriving DecidableEq, Repr

/-- chia_protocol::FullBlock restricted to the fields the parser reads. -/
structure FullBlock where
  reward_chain_block : RewardChainBlock
  foliage : Foliage
  foliage_transaction_block : Option FoliageTransactionBlock
  transactions_info : Option TransactionsInfo
  transactions_generator : Option (List Nat)
  transactions_generator_ref_list : List Nat
  deriving DecidableEq, Repr

/-- GeneratorBlockInfo from crate/chia-generator-parser/src/types.rs. -/
structure GeneratorBlockInfo where
  prev_header_hash : List Nat
  transactions_generator : Option (List Nat)
  transactions_generator_ref_list : List Nat
  deriving DecidableEq, Repr

/-- ParsedBlock from crate/chia-generator-parser/src/types.rs. -/
structure ParsedBlock where
  height : Nat
  weight : String
  header_hash : String
  timestamp : Option Nat
  coin_additions : List CoinInfo
  coin_removals : List CoinInfo
  coin_spends : List CoinSpendInfo
  coin_creations : List CoinInfo
  has_transactions_generator : Bool
  generator_size : Option Nat
  generator_bytecode : Option String
  generator_info : Option GeneratorBlockInfo
  deriving DecidableEq, Repr

/-- External-library calls made by the parser, modelled as oracle functions:
clvmr node_from_bytes_backrefs, chia_consensus setup_generator_args (with the
empty reference list the parser always passes), clvmr run_program,
chia_consensus run_block_generator2, clvm_utils tree_hash, clvmr node_to_bytes,
chia_traits streamable serialization of the foliage, and sha2 Sha256. -/
structure ExternOracle where
  parseGenerator : List Nat → Except String Node
  setupArgs : Except String Node
  runProgram : Node → Node → Except String Node
  runBlockGenerator2 : List Nat → Except String SpendBundleConditions
  treeHash : Node → List Nat
  nodeToBytes : Node → Option (List Nat)
  foliageToBytes : Foliage → Option (List Nat)
  sha256 : List Nat → List Nat

/-- BlockParser::extract_created_coins: the Pass B join - index i at or past the
end of the conditions yields no creations, otherwise each CREATE_COIN of entry i
becomes a CoinInfo whose parent is that entry's coin_id. -/
def extract_created_coins (spend_index : Nat) (sbc : SpendBundleConditions) : List CoinInfo :=
  match sbc.spends[spend_index]? with
  | none => []
  | some spend_cond =>
      spend_cond.create_coin.map (fun new_coin =>
        { parent_coin_info := hexEncode spend_cond.coin_id
          puzzle_hash := hexEncode new_coin.puzzle_hash
          amount := new_coin.amount })

/-- BlockParser::extract_parent_coin_info: first element must be an atom of
exactly 32 bytes; every failure collapses to none via Result::ok()?. -/
def extract_parent_coin_info (coin_spend : Node) : Option (List Nat) := do
  let first_node ← (first coin_spend).toOption
  let parent_atom ← (atom first_node ErrorCode.InvalidParentId).toOption
  if parent_atom.length = 32 then some parent_atom else none

/-- BlockParser::parse_single_coin_spend: structural walk of one coin-spend
quadruple (parent_id, puzzle, amount, solution); any structural failure returns
none (the spend is silently dropped). -/
def parse_single_coin_spend (o : ExternOracle) (coin_spend : Node) (spend_index : Nat)
    (sbc : SpendBundleConditions) : Option CoinSpendInfo := do
  let parent_bytes ← extract_parent_coin_info coin_spend
  let rest1 ← (rest coin_spend).toOption
  let puzzle ← (first rest1).toOption
  let rest2 ← (rest rest1).toOption
  let amount_node ← (first rest2).toOption
  let amount_atom ← (atom amount_node ErrorCode.InvalidCoinAmount).toOption
  let amount := u64_from_bytes amount_atom
  let rest3 ← (rest rest2).toOption
  let solution ← (first rest3).toOption
  let puzzle_hash := o.treeHash puzzle
  let coin_info : CoinInfo :=
    { parent_coin_info := hexEncode parent_bytes
      puzzle_hash := hexEncode puzzle_hash
      amount := amount }
  let puzzle_reveal ← o.nodeToBytes puzzle
  let solution_bytes ← o.nodeToBytes solution
  let created_coins := extract_created_coins spend_index sbc
  some { coin := coin_info
         puzzle_reveal := puzzle_reveal
         solution := solution_bytes
         real_data := true
         parsing_method := "clvm_execution"
         offset := 0
         created_coins := created_coins }

/-- The while-let loop of BlockParser::extract_coin_spends_from_output: iterate
the spends list, pushing (coin, spend, created coins) for every successfully
parsed quadruple; spend_index advances only on success; iteration stops at any
atom (next returns Ok(None) on nil and Err on a non-empty atom, and the while-let
exits in both cases).  Returns (coins_spent, coin_spends, coins_created). -/
def extract_spends_loop (o : ExternOracle) (sbc : SpendBundleConditions) :
    Node → Nat → List CoinInfo × List CoinSpendInfo × List CoinInfo
  | .pair coin_spend next_iter, spend_index =>
    match parse_single_coin_spend o coin_spend spend_index sbc with
    | some spend_info =>
        let r := extract_spends_loop o sbc next_iter (spend_index + 1)
        (spend_info.coin :: r.1, spend_info :: r.2.1, spend_info.created_coins ++ r.2.2)
    | none => extract_spends_loop o sbc next_iter spend_index
  | .atom _, _ => ([], [], [])

/-- BlockParser::extract_coin_spends_from_output: take the first element of the
generator output (returning three empty lists if it is not a pair), then walk it. -/
def extract_coin_spends_from_output (o : ExternOracle) (generator_output : Node)
    (sbc : SpendBundleConditions) :
    Except GeneratorParserError (List CoinInfo × List CoinSpendInfo × List CoinInfo) :=
  match first generator_output with
  | .error _ => .ok ([], [], [])
  | .ok spends_list => .ok (extract_spends_loop o sbc spends_list 0)

/-- BlockParser::run_generator: run_program with errors mapped to ClvmExecutionError. -/
def run_generator (o : ExternOracle) (generator_node args : Node) :
    Except GeneratorParserError Node :=
  match o.runProgram generator_node args with
  | .ok r => .ok r
  | .error e => .error (.ClvmExecutionError e)

/-- BlockParser::get_spend_bundle_conditions: Pass B - run_block_generator2,
falling back to SpendBundleConditions::default() on failure. -/
def get_spend_bundle_conditions (o : ExternOracle) (generator_bytes : List Nat) :
    SpendBundleConditions :=
  match o.runBlockGenerator2 generator_bytes with
  | .ok conditions => conditions
  | .error _ => sbcDefault

/-- BlockParser::process_generator_for_coins: empty bytecode short-circuits;
parse, argument setup and Pass A failures each return Ok with three empty lists;
otherwise Pass B runs (with default on failure) and the output walk joins them. -/
def process_generator_for_coins (o : ExternOracle) (generator_bytes : List Nat) :
    Except GeneratorParserError (List CoinInfo × List CoinSpendInfo × List CoinInfo) :=
  if generator_bytes.isEmpty then .ok ([], [], [])
  else
    match o.parseGenerator generator_bytes with
    | .error _ => .ok ([], [], [])
    | .ok generator_node =>
      match o.setupArgs with
      | .error _ => .ok ([], [], [])
      | .ok args =>
        match run_generator o generator_node args with
        | .error _ => .ok ([], [], [])
        | .ok generator_output =>
          let sbc := get_spend_bundle_conditions o generator_bytes
          extract_coin_spends_from_output o generator_output sbc

/-- BlockParser::extract_reward_claims: reward_claims_incorporated as CoinInfo,
empty when transactions_info is absent. -/
def extract_reward_claims (block : FullBlock) : List CoinInfo :=
  match block.transactions_info with
  | some tx_info =>
      tx_info.reward_claims_incorporated.map (fun claim =>
        CoinInfo.new claim.parent_coin_info claim.puzzle_hash claim.amount)
  | none => []

/-- BlockParser::calculate_header_hash: sha256 of the streamable foliage bytes,
hex-encoded; serialization failure is an InvalidBlockFormat error. -/
def calculate_header_hash (o : ExternOracle) (foliage : Foliage) :
    Except GeneratorParserError String :=
  match o.foliageToBytes foliage with
  | none => .error (.InvalidBlockFormat "Failed to serialize foliage")
  | some bs => .ok (hexEncode (o.sha256 bs))

/-- BlockParser::parse_full_block: the block decoder.  Note that the code seeds
coin_additions (not coin_removals) with the reward claims, then appends the
generator's coin_creations; coin_removals receives only the generator's spent
coins, and no farmer/pool reward coin is ever constructed here. -/
def parse_full_block (o : ExternOracle) (block : FullBlock) :
    Except GeneratorParserError ParsedBlock := do
  let height := block.reward_chain_block.height
  let weight := block.reward_chain_block.weight
  let timestamp := block.foliage_transaction_block.map (fun ftb => ftb.timestamp % 2 ^ 32)
  let header_hash ← calculate_header_hash o block.foliage
  let has_transactions_generator := block.transactions_generator.isSome
  let generator_size := block.transactions_generator.map (fun g => g.length % 2 ^ 32)
  let generator_bytecode := block.transactions_generator.map hexEncode
  let generator_info := block.transactions_generator.map (fun gen =>
    { prev_header_hash := block.foliage.prev_block_hash
      transactions_generator := some gen
      transactions_generator_ref_list := block.transactions_generator_ref_list
      : GeneratorBlockInfo })
  let coin_additions0 := extract_reward_claims block
  let res ← match block.transactions_generator with
    | some generator => process_generator_for_coins o generator
    | none => Except.ok ([], [], [])
  let coin_removals := res.1
  let coin_spends := res.2.1
  let coin_creations := res.2.2
  let coin_additions := coin_additions0 ++ coin_creations
  Except.ok
    { height := height
      weight := toString weight
      header_hash := header_hash
      timestamp := timestamp
      coin_additions := coin_additions
      coin_removals := coin_removals
      coin_spends := coin_spends
      coin_creations := coin_creations
      has_transactions_generator := has_transactions_generator
      generator_size := generator_size
      generator_bytecode := generator_bytecode
      generator_info := generator_info }

/-- ChiaError from src/error.rs, restricted to the variants the peer code
constructs; payloads are the formatted message strings. -/
inductive ChiaError
  | Connection (msg : String)
  | WebSocket (msg : String)
  | Serialization (msg : String)
  | Protocol (msg : String)
  | Tls (msg : String)
  | Other (msg : String)
  deriving DecidableEq, Repr

/-- chia_protocol::NodeType. -/
inductive NodeType
  | FullNode
  | Harvester
  | Farmer
  | Timelord
  | Introducer
  | Wallet
  | DataLayer
  deriving DecidableEq, Repr

/-- chia_protocol::Handshake. -/
structure Handshake where
  network_id : String
  protocol_version : String
  software_version : String
  server_port : Nat
  node_type : NodeType
  capabilities : List (Nat × String)
  deriving DecidableEq, Repr

/-- chia_protocol::ProtocolMessageTypes, restricted to the tags the client
inspects; every other tag is collapsed into otherTag. -/
inductive ProtocolMessageType
  | Handshake
  | NewPeak
  | NewPeakWallet
  | RequestBlock
  | RespondBlock
  | RejectBlock
  | CoinStateUpdate
  | otherTag (tag : Nat)
  deriving DecidableEq, Repr

/-- Parse outcome of a message payload under the schema the client chooses for
its msg_type: the typed value when from_bytes succeeds, or an unparseable
marker.  A payload of the wrong shape for the attempted schema fails to parse. -/
inductive PayloadParse
  | handshakeData (h : Handshake)
  | handshakeUnparseable
  | respondBlockData (b : FullBlock)
  | respondBlockUnparseable
  | newPeakWalletData (height : Nat)
  | newPeakWalletUnparseable
  | otherData
  deriving DecidableEq, Repr

/-- Parse outcome of a binary frame via chia_protocol::Message::from_bytes:
either unparseable bytes or a message with its type tag, optional id and payload. -/
inductive BinaryParse
  | unparseable
  | msg (msg_type : ProtocolMessageType) (id : Option Nat) (data : PayloadParse)
  deriving DecidableEq, Repr

/-- One tungstenite WebSocket message as the client observes it. -/
inductive WsMessage
  | binary (content : BinaryParse)
  | close
  | ping (data : List Nat)
  | pong (data : List Nat)
  | textOrOther
  deriving DecidableEq, Repr

/-- The handshake our client sends, from PeerConnection::handshake in
src/peer.rs lines 168-179: wallet node kind, protocol 0.0.37, server_port 0,
capabilities (1,1),(2,1),(3,1). -/
def client_handshake (network_id : String) : Handshake :=
  { network_id := network_id
    protocol_version := "0.0.37"
    software_version := "0.0.0"
    server_port := 0
    node_type := .Wallet
    capabilities := [(1, "1"), (2, "1"), (3, "1")] }

/-- Validation of the first inbound frame in PeerConnection::handshake.
The argument is the result of ws_stream.next(): none models a closed stream,
some (.error e) a WebSocket error, some (.ok m) a received frame. -/
def handshake_validate (network_id : String)
    (response : Option (Except String WsMessage)) : Except ChiaError Unit :=
  match response with
  | some (.ok (.binary content)) =>
    match content with
    | .unparseable => .error (.Protocol "failed to parse message")
    | .msg msg_type _ data =>
      if msg_type = ProtocolMessageType.Handshake then
        match data with
        | .handshakeData peer_handshake =>
          if peer_handshake.node_type ≠ NodeType.FullNode then
            .error (.Protocol "Expected FullNode")
          else if peer_handshake.network_id ≠ network_id then
            .error (.Protocol "Network ID mismatch")
          else .ok ()
        | _ => .error (.Protocol "failed to parse handshake")
      else .error (.Protocol "Expected handshake")
  | some (.ok .close) => .error (.Connection "Peer closed connection during handshake")
  | some (.ok _) => .error (.Protocol "Unexpected message type")
  | some (.error e) => .error (.WebSocket e)
  | none => .error (.Connection "Connection closed during handshake")

/-- MAX_ATTEMPTS from PeerConnection::request_block_by_height. -/
def MAX_ATTEMPTS : Nat := 100

/-- The receive loop of PeerConnection::request_block_by_height: one unit of
fuel per received frame (the code increments `attempts` once per iteration);
fuel exhaustion is the timeout error after the loop.  The frame list models
successive results of ws_stream.next(); list exhaustion models a closed stream. -/
def request_block_recv : Nat → List (Except String WsMessage) → Except ChiaError FullBlock
  | 0, _ => .error (.Protocol "Timeout waiting for block response")
  | _ + 1, [] => .error (.Connection "Connection closed during block request")
  | attempts_left + 1, frame :: restFrames =>
    match frame with
    | .error e => .error (.WebSocket e)
    | .ok (.binary .unparseable) => request_block_recv attempts_left restFrames
    | .ok (.binary (.msg msg_type _ data)) =>
      match msg_type with
      | .RespondBlock =>
        match data with
        | .respondBlockData b => .ok b
        | _ => .error (.Protocol "Failed to parse RespondBlock")
      | .RejectBlock => .error (.Protocol "Block request rejected")
      | _ => request_block_recv attempts_left restFrames
    | .ok .close => .error (.Connection "Peer closed connection during block request")
    | .ok (.ping _) => request_block_recv attempts_left restFrames
    | .ok (.pong _) => request_block_recv attempts_left restFrames
    | .ok .textOrOther => request_block_recv attempts_left restFrames

/-- PeerConnection::request_block_by_height after the request frame is sent:
the receive loop with the MAX_ATTEMPTS budget. -/
def request_block_by_height (frames : List (Except String WsMessage)) :
    Except ChiaError FullBlock :=
  request_block_recv MAX_ATTEMPTS frames

/-- Frames on which the receive loop continues waiting: unparseable frames,
NewPeakWallet, CoinStateUpdate, unknown tags, pings, pongs and text frames. -/
def skippable : Except String WsMessage → Bool
  | .ok (.binary .unparseable) => true
  | .ok (.binary (.msg msg_type _ _)) =>
    match msg_type with
    | .RespondBlock => false
    | .RejectBlock => false
    | _ => true
  | .ok (.ping _) => true
  | .ok (.pong _) => true
  | .ok .textOrOther => true
  | _ => false

/-- PeerSession::request_block_by_height control flow (src/peer.rs lines 48-80).
Arguments model the session state and I/O outcomes: `connected` is whether
ws_stream is already Some; connect1/connect2 the outcomes of the first and
second ensure_connected dial (connect + handshake); req1/req2 the outcomes of
the two possible block-request attempts.  Returns the number of new connections
the session itself establishes during the call, and the result. -/
def session_request_block (connected : Bool)
    (connect1 connect2 : Except ChiaError Unit)
    (req1 req2 : Except ChiaError FullBlock) :
    Nat × Except ChiaError FullBlock :=
  match (if connected then Except.ok () else connect1) with
  | .error e => ((if connected then 0 else 1), .error e)
  | .ok _ =>
    let dials := if connected then 0 else 1
    match req1 with
    | .ok block => (dials, .ok block)
    | .error _ =>
      match connect2 with
      | .error e => (dials + 1, .error e)
      | .ok _ => (dials + 1, req2)

/-- Session-level minimum interval between requests (200 ms, src/peer.rs line 51). -/
def SESSION_MIN_INTERVAL_MS : Nat := 200

/-- The rate-limit prologue of PeerSession::request_block_by_height: if less
than the minimum interval elapsed since last_request_time, sleep the deficit;
the returned value is the instant recorded as the new last_request_time, at
which the request is sent. -/
def session_next_request_time (last_request_time now : Nat) : Nat :=
  let elapsed := now - last_request_time
  if elapsed < SESSION_MIN_INTERVAL_MS then now + (SESSION_MIN_INTERVAL_MS - elapsed) else now

/-- RATE_LIMIT_MS from src/peer_pool.rs. -/
def RATE_LIMIT_MS : Nat := 500

/-- PeerInfo from src/peer_pool.rs lines 43-48.  Its fields are last_used,
is_connected, worker_tx and peak_height; the worker channel handle is not
modelled.  There is no failure counter of any kind in this structure. -/
structure PeerInfo where
  last_used : Nat
  is_connected : Bool
  peak_height : Option Nat
  deriving DecidableEq, Repr

/-- The dispatcher eligibility test in ChiaPeerPool::start_request_processor:
connected and at least RATE_LIMIT_MS since last_used (duration_since saturates
at zero, matching Nat subtraction). -/
def peer_eligible (now : Nat) (info : PeerInfo) : Bool :=
  info.is_connected && decide (RATE_LIMIT_MS ≤ now - info.last_used)

/-- Dispatch of one queued request to a peer: only an eligible peer is selected,
and its last_used is set to now. -/
def dispatch_to_peer (now : Nat) (info : PeerInfo) : Option PeerInfo :=
  if peer_eligible now info then some { info with last_used := now } else none

/-- PeerInfo as initialized by ChiaPeerPool::add_peer: last_used is
now - RATE_LIMIT_MS when checked_sub succeeds (modelled as RATE_LIMIT_MS ≤ now),
else the unwrap_or fallback now. -/
def add_peer_info (now : Nat) : PeerInfo :=
  { last_used := if RATE_LIMIT_MS ≤ now then now - RATE_LIMIT_MS else now
    is_connected := true
    peak_height := none }

/-- The aggregate highest_peak update in ChiaPeerPool::peer_worker (lines
397-443): a newly parsed block height replaces the peak when strictly larger,
and initializes it when absent. -/
def update_highest_peak (highest_peak : Option Nat) (height : Nat) : Option Nat :=
  match highest_peak with
  | some current_highest =>
      if current_highest < height then some height else some current_highest
  | none => some height

/-- Order on optional peaks: none is below everything, some compares heights. -/
def peakLE : Option Nat → Option Nat → Prop
  | none, _ => True
  | some _, none => False
  | some a, some b => a ≤ b

/-- Strict order on optional peaks: used to say an update strictly increased
the peak (a none peak is strictly below any some). -/
def peakLT : Option Nat → Option Nat → Prop
  | none, some _ => True
  | _, none => False
  | some a, some b => a < b

/-- WorkerRequest from src/peer_pool.rs; a GetBlock is modelled by the outcome
the worker will send back on its response channel. -/
inductive WorkerRequest
  | getBlock (outcome : Except ChiaError FullBlock)
  | Shutdown
  deriving Repr

/-- Events the pool emits through its callbacks. -/
inductive PoolEvent
  | peer_connected (peer_id : String)
  | peer_disconnected (peer_id : String)
  | new_peak (old : Option Nat) (nw : Nat) (peer_id : String)
  deriving DecidableEq, Repr

/-- The request loop of ChiaPeerPool::peer_worker over a list of channel
messages: every GetBlock outcome is forwarded to the caller and the loop
continues; only Shutdown breaks the loop, after which peer_disconnected is
emitted.  Returns (replies sent, whether the worker is still running after the
listed messages, events emitted). -/
def peer_worker_run (peer_id : String) :
    List WorkerRequest → List (Except ChiaError FullBlock) × Bool × List PoolEvent
  | [] => ([], true, [])
  | .getBlock outcome :: restReqs =>
      let r := peer_worker_run peer_id restReqs
      (outcome :: r.1, r.2.1, r.2.2)
  | .Shutdown :: _ => ([], false, [.peer_disconnected peer_id])

/-- Oracle whose external calls all fail or return stubs; used to evaluate the
embedded parser on concrete blocks whose decoding never reaches the failing
calls (or is meant to exercise exactly those failure paths). -/
def oracleStub : ExternOracle :=
  { parseGenerator := fun _ => Except.error "stub parse error"
    setupArgs := Except.ok (Node.atom [])
    runProgram := fun _ _ => Except.error "stub run error"
    runBlockGenerator2 := fun _ => Except.error "stub pass b error"
    treeHash := fun _ => []
    nodeToBytes := fun _ => none
    foliageToBytes := fun _ => some []
    sha256 := fun bs => bs }

/-- Concrete transaction block: foliage_transaction_block present, one reward
claim incorporated, no generator. -/
def c1Block : FullBlock :=
  { reward_chain_block := { height := 5, weight := 7 }
    foliage := { prev_block_hash := List.replicate 32 0 }
    foliage_transaction_block := some { timestamp := 1234 }
    transactions_info := some { reward_claims_incorporated :=
      [{ parent_coin_info := List.replicate 32 1
         puzzle_hash := List.replicate 32 2
         amount := 100 }] }
    transactions_generator := none
    transactions_generator_ref_list := [] }

/-- Concrete block carrying a generator whose parse will fail under oracleStub. -/
def c3Block : FullBlock :=
  { reward_chain_block := { height := 9, weight := 1 }
    foliage := { prev_block_hash := List.replicate 32 7 }
    foliage_transaction_block := none
    transactions_info := none
    transactions_generator := some [1, 2, 3]
    transactions_generator_ref_list := [] }

/-- Concrete Pass B result with a single spend carrying one CREATE_COIN. -/
def sbc1 : SpendBundleConditions :=
  { spends := [{ coin_id := List.replicate 32 3
                 create_coin := [{ puzzle_hash := List.replicate 32 4, amount := 42 }] }] }

/-- A coin-spend quadruple whose parent atom has 31 bytes, failing the 32-byte check. -/
def badSpendNode : Node := Node.pair (Node.atom (List.replicate 31 9)) (Node.atom [])

/-- A minimal concrete FullBlock used as a response payload. -/
def someBlock : FullBlock :=
  { reward_chain_block := { height := 1, weight := 1 }
    foliage := { prev_block_hash := [] }
    foliage_transaction_block := none
    transactions_info := none
    transactions_generator := none
    transactions_generator_ref_list := [] }

/-- A WebSocket ping frame. -/
def pingFrame : Except String WsMessage := Except.ok (WsMessage.ping [])

/-- A RESPOND_BLOCK frame carrying someBlock. -/
def respondFrame : Except String WsMessage :=
  Except.ok (WsMessage.binary (BinaryParse.msg ProtocolMessageType.RespondBlock (some 1)
    (PayloadParse.respondBlockData someBlock)))

/-- Helper: the output walk always returns Ok. -/
theorem extract_coin_spends_from_output_isOk (o : ExternOracle) (out : Node)
    (sbc : SpendBundleConditions) :
    ∃ v, extract_coin_spends_from_output o out sbc = Except.ok v := by
  unfold extract_coin_spends_from_output
  cases first out with
  | error e => exact ⟨_, rfl⟩
  | ok l => exact ⟨_, rfl⟩

/-- Helper: process_generator_for_coins never returns an error. -/
theorem process_generator_for_coins_isOk (o : ExternOracle) (gb : List Nat) :
    ∃ v, process_generator_for_coins o gb = Except.ok v := by
  unfold process_generator_for_coins
  split
  · exact ⟨_, rfl⟩
  · split
    · exact ⟨_, rfl⟩
    · split
      · exact ⟨_, rfl⟩
      · split
        · exact ⟨_, rfl⟩
        · exact extract_coin_spends_from_output_isOk o _ _

/-- Helper: an empty generator short-circuits to three empty lists. -/
theorem process_generator_for_coins_empty (o : ExternOracle) :
    process_generator_for_coins o [] = Except.ok ([], [], []) := rfl

/-- Helper: a generator parse failure yields three empty lists. -/
theorem process_parse_error_empty (o : ExternOracle) (gb : List Nat) (e : String)
    (he : o.parseGenerator gb = Except.error e) :
    process_generator_for_coins o gb = Except.ok ([], [], []) := by
  cases hgb : gb.isEmpty
  · simp [process_generator_for_coins, hgb, he]
  · simp [process_generator_for_coins, hgb]

/-- Helper: an argument-setup failure yields three empty lists. -/
theorem process_args_error_empty (o : ExternOracle) (gb : List Nat) (e : String)
    (he : o.setupArgs = Except.error e) :
    process_generator_for_coins o gb = Except.ok ([], [], []) := by
  cases hgb : gb.isEmpty
  · cases hp : o.parseGenerator gb with
    | error e2 => simp [process_generator_for_coins, hgb, hp]
    | ok gnode => simp [process_generator_for_coins, hgb, hp, he]
  · simp [process_generator_for_coins, hgb]

/-- Helper: a Pass A execution failure yields three empty lists. -/
theorem process_run_error_empty (o : ExternOracle) (gb : List Nat)
    (gnode args : Node) (e : String)
    (hp : o.parseGenerator gb = Except.ok gnode)
    (ha : o.setupArgs = Except.ok args)
    (hr : o.runProgram gnode args = Except.error e) :
    process_generator_for_coins o gb = Except.ok ([], [], []) := by
  cases hgb : gb.isEmpty
  · simp [process_generator_for_coins, hgb, hp, ha, run_generator, hr]
  · simp [process_generator_for_coins, hgb]

/-- Helper: a successfully parsed spend carries exactly the Pass B creations for
its spend index. -/
theorem parse_single_coin_spend_created (o : ExternOracle) (cs : Node) (i : Nat)
    (sbc : SpendBundleConditions) (info : CoinSpendInfo)
    (h : parse_single_coin_spend o cs i sbc = some info) :
    info.created_coins = extract_created_coins i sbc := by
  simp only [parse_single_coin_spend, bind, Option.bind_eq_some, Option.some.injEq] at h
  obtain ⟨parent, hp, r1, h1, pz, h2, r2, h3, an, h4, aa, h5, r3, h6, sol, h7, pr, h8, sb, h9,
    hinfo⟩ := h
  subst hinfo
  rfl

/-- Helper: in the output walk, the j-th successfully parsed spend (counting from
starting index i0) carries the Pass B creations of index i0 + j. -/
theorem extract_spends_loop_created (o : ExternOracle) (sbc : SpendBundleConditions) :
    ∀ (it : Node) (i0 j : Nat) (info : CoinSpendInfo),
      ((extract_spends_loop o sbc it i0).2.1)[j]? = some info →
      info.created_coins = extract_created_coins (i0 + j) sbc := by
  intro it
  induction it with
  | atom bs =>
    intro i0 j info h
    simp [extract_spends_loop] at h
  | pair hd tl _ihl ihr =>
    intro i0 j info h
    simp only [extract_spends_loop] at h
    cases hp : parse_single_coin_spend o hd i0 sbc with
    | none =>
      rw [hp] at h
      exact ihr i0 j info h
    | some si =>
      rw [hp] at h
      simp only [] at h
      cases j with
      | zero =>
        simp only [List.getElem?_cons_zero, Option.some.injEq] at h
        subst h
        rw [Nat.add_zero]
        exact parse_single_coin_spend_created o hd i0 sbc si hp
      | succ k =>
        simp only [List.getElem?_cons_succ] at h
        have := ihr (i0 + 1) k info h
        rw [this]
        congr 1
        omega

/-- Helper: peakLE is transitive. -/
theorem peakLE_trans {a b c : Option Nat} (h1 : peakLE a b) (h2 : peakLE b c) : peakLE a c := by
  cases a <;> cases b <;> cases c <;> simp_all [peakLE] <;> omega

/-- Helper: one update step never lowers the aggregate peak. -/
theorem peakLE_update (cur : Option Nat) (h : Nat) : peakLE cur (update_highest_peak cur h) := by
  cases cur with
  | none => simp [update_highest_peak, peakLE]
  | some c =>
    simp only [update_highest_peak]
    split
    · simp [peakLE]
      omega
    · simp [peakLE]

/-- Helper: a skippable frame is consumed and the receive loop continues with
one less unit of the attempt budget. -/
theorem request_block_recv_skip (n : Nat) (f : Except String WsMessage)
    (frames : List (Except String WsMessage)) (hf : skippable f = true) :
    request_block_recv (n + 1) (f :: frames) = request_block_recv n frames := by
  cases f with
  | error e => simp [skippable] at hf
  | ok m =>
    cases m with
    | binary c =>
      cases c with
      | unparseable => rfl
      | msg t i d => cases t <;> first | rfl | simp [skippable] at hf
    | close => simp [skippable] at hf
    | ping d => rfl
    | pong d => rfl
    | textOrOther => rfl

/-- Helper: a fully skippable prefix only consumes attempt budget. -/
theorem request_block_recv_skip_run (pre : List (Except String WsMessage))
    (hpre : ∀ f ∈ pre, skippable f = true) :
    ∀ (n : Nat), pre.length ≤ n →
      ∀ frames, request_block_recv n (pre ++ frames)
        = request_block_recv (n - pre.length) frames := by
  induction pre with
  | nil => intro n _ frames; simp
  | cons f pre ih =>
    intro n hn frames
    cases n with
    | zero => simp at hn
    | succ m =>
      have hf : skippable f = true := hpre f (by simp)
      rw [List.cons_append, request_block_recv_skip m f (pre ++ frames) hf,
        ih (fun g hg => hpre g (by simp [hg])) m (by simpa using hn) frames]
      simp [Nat.succ_sub_succ]

/-- Helper: a run of skippable frames at least as long as the budget exhausts it. -/
theorem request_block_recv_timeout :
    ∀ (n : Nat) (frames : List (Except String WsMessage)),
      (∀ f ∈ frames, skippable f = true) → n ≤ frames.length →
      request_block_recv n frames
        = Except.error (ChiaError.Protocol "Timeout waiting for block response") := by
  intro n
  induction n with
  | zero => intro frames _ _; rfl
  | succ m ih =>
    intro frames hall hn
    cases frames with
    | nil => simp at hn
    | cons f frames =>
      rw [request_block_recv_skip m f frames (hall f (by simp))]
      exact ih frames (fun g hg => hall g (by simp [hg])) (by simpa using hn)

/-- Helper: a successful dispatch stamps last_used with the dispatch time and
requires eligibility. -/
theorem dispatch_some_last_used {now : Nat} {info info1 : PeerInfo}
    (h : dispatch_to_peer now info = some info1) :
    info1.last_used = now ∧ peer_eligible now info = true := by
  unfold dispatch_to_peer at h
  split at h
  · cases h
    exact ⟨rfl, by assumption⟩
  · cases h

/-- Helper: eligibility means at least RATE_LIMIT_MS elapsed since last_used. -/
theorem eligible_elapsed {now : Nat} {info : PeerInfo} (h : peer_eligible now info = true) :
    RATE_LIMIT_MS ≤ now - info.last_used := by
  unfold peer_eligible at h
  simp only [Bool.and_eq_true, decide_eq_true_eq] at h
  exact h.2

/-- C1: the block decoder's record on a transaction block with one incorporated
reward claim and no generator.  The code routes the reward claim into
coin_additions and leaves coin_removals empty, and never constructs the two
farmer/pool reward coins, so coin_removals does not equal reward claims
followed by spend coins and coin_additions does not begin with the two reward
coins: len(coin_removals) = 0 while the claim requires
len(reward_claims) + len(coin_spends) = 1. -/
theorem c1_reward_claims_routed_to_additions :
    (parse_full_block oracleStub c1Block).map ParsedBlock.coin_removals = Except.ok []
  ∧ (parse_full_block oracleStub c1Block).map ParsedBlock.coin_additions
      = Except.ok [CoinInfo.new (List.replicate 32 1) (List.replicate 32 2) 100]
  ∧ (parse_full_block oracleStub c1Block).map ParsedBlock.coin_spends = Except.ok []
  ∧ (parse_full_block oracleStub c1Block).map ParsedBlock.coin_creations = Except.ok []
  ∧ c1Block.foliage_transaction_block.isSome = true
  ∧ extract_reward_claims c1Block
      = [CoinInfo.new (List.replicate 32 1) (List.replicate 32 2) 100] :=
  ⟨rfl, rfl, rfl, rfl, rfl, rfl⟩

/-- C2 counterexample: three consecutive per-request failures leave the worker
alive (still serving), forward the three errors to the callers, and emit no
peer_disconnected event - no failure counter exists and no eviction happens. -/
theorem c2_three_failures_no_eviction :
    peer_worker_run "peer-a"
      [WorkerRequest.getBlock (Except.error (ChiaError.Protocol "Block request rejected")),
       WorkerRequest.getBlock (Except.error (ChiaError.Protocol "Block request rejected")),
       WorkerRequest.getBlock (Except.error (ChiaError.Protocol "Block request rejected"))]
      = ([Except.error (ChiaError.Protocol "Block request rejected"),
          Except.error (ChiaError.Protocol "Block request rejected"),
          Except.error (ChiaError.Protocol "Block request rejected")], true, []) := rfl

/-- C2 as amended: per-request errors are forwarded to the caller and change
nothing about the peer's standing - any sequence of request outcomes (however
many failures) leaves the worker running and emits no event; only an explicit
Shutdown stops the worker, which then emits peer_disconnected. -/
theorem c2_errors_never_evict (peer_id : String) :
    (∀ outcomes : List (Except ChiaError FullBlock),
       peer_worker_run peer_id (outcomes.map WorkerRequest.getBlock) = (outcomes, true, []))
  ∧ (∀ restReqs, peer_worker_run peer_id (WorkerRequest.Shutdown :: restReqs)
       = ([], false, [PoolEvent.peer_disconnected peer_id])) := by
  constructor
  · intro outcomes
    induction outcomes with
    | nil => rfl
    | cons o os ih => simp [peer_worker_run, ih]
  · intro restReqs
    rfl

/-- C3: the generator executor never propagates a failure - it always returns
Ok; empty bytecode yields three empty lists for every oracle (so without
invoking the interpreter); parse, argument-setup and Pass A failures each yield
three empty lists; and the enclosing block decode still succeeds with
has_generator = true and no coin spends. -/
theorem c3_executor_failures_swallowed (o : ExternOracle) (generator_bytes : List Nat) :
    (∃ v, process_generator_for_coins o generator_bytes = Except.ok v)
  ∧ (generator_bytes = [] →
       process_generator_for_coins o generator_bytes = Except.ok ([], [], []))
  ∧ (∀ e, o.parseGenerator generator_bytes = Except.error e →
       process_generator_for_coins o generator_bytes = Except.ok ([], [], []))
  ∧ (∀ e, o.setupArgs = Except.error e →
       process_generator_for_coins o generator_bytes = Except.ok ([], [], []))
  ∧ (∀ gnode args e, o.parseGenerator generator_bytes = Except.ok gnode →
       o.setupArgs = Except.ok args → o.runProgram gnode args = Except.error e →
       process_generator_for_coins o generator_bytes = Except.ok ([], [], []))
  ∧ (∀ block bs, block.transactions_generator = some generator_bytes →
       o.foliageToBytes block.foliage = some bs →
       ∀ e, o.parseGenerator generator_bytes = Except.error e →
       (parse_full_block o block).map ParsedBlock.has_transactions_generator = Except.ok true
         ∧ (parse_full_block o block).map ParsedBlock.coin_spends = Except.ok []) := by
  refine ⟨process_generator_for_coins_isOk o generator_bytes,
    ?_, ?_, ?_, ?_, ?_⟩
  · intro h
    subst h
    exact process_generator_for_coins_empty o
  · intro e he
    exact process_parse_error_empty o generator_bytes e he
  · intro e he
    exact process_args_error_empty o generator_bytes e he
  · intro gnode args e hp ha hr
    exact process_run_error_empty o generator_bytes gnode args e hp ha hr
  · intro block bs hg hf e he
    have hproc := process_parse_error_empty o generator_bytes e he
    have h2 : parse_full_block o block = Except.ok
        { height := block.reward_chain_block.height
          weight := toString block.reward_chain_block.weight
          header_hash := hexEncode (o.sha256 bs)
          timestamp := block.foliage_transaction_block.map (fun ftb => ftb.timestamp % 2 ^ 32)
          coin_additions := extract_reward_claims block ++ []
          coin_removals := []
          coin_spends := []
          coin_creations := []
          has_transactions_generator := true
          generator_size := some (generator_bytes.length % 2 ^ 32)
          generator_bytecode := some (hexEncode generator_bytes)
          generator_info := some ⟨block.foliage.prev_block_hash, some generator_bytes, block.transactions_generator_ref_list⟩ } := by
      unfold parse_full_block calculate_header_hash
      rw [hf, hg]
      show bind (process_generator_for_coins o generator_bytes) _ = _
      rw [hproc]
      rfl
    rw [h2]
    exact ⟨rfl, rfl⟩

/-- C4: the Pass A / Pass B join is positional - the j-th parsed spend of the
output walk receives exactly the CREATE_COIN list of Pass B entry j, each
created coin's parent is that entry's coin_id, indices past the Pass B entry
count receive an empty list, and a Pass B failure (default conditions) gives
every index an empty list. -/
theorem c4_positional_pass_b_join (o : ExternOracle) (sbc : SpendBundleConditions) :
    (∀ spends_list j info,
       ((extract_spends_loop o sbc spends_list 0).2.1)[j]? = some info →
       info.created_coins = extract_created_coins j sbc)
  ∧ (∀ i sc, sbc.spends[i]? = some sc →
       extract_created_coins i sbc = sc.create_coin.map (fun nc =>
         { parent_coin_info := hexEncode sc.coin_id
           puzzle_hash := hexEncode nc.puzzle_hash
           amount := nc.amount }))
  ∧ (∀ i, sbc.spends.length ≤ i → extract_created_coins i sbc = [])
  ∧ (∀ gb e i, o.runBlockGenerator2 gb = Except.error e →
       extract_created_coins i (get_spend_bundle_conditions o gb) = []) := by
  refine ⟨?_, ?_, ?_, ?_⟩
  · intro spends_list j info h
    have := extract_spends_loop_created o sbc spends_list 0 j info h
    simpa using this
  · intro i sc h
    unfold extract_created_coins
    rw [h]
  · intro i h
    unfold extract_created_coins
    rw [List.getElem?_eq_none h]
  · intro gb e i h
    unfold get_spend_bundle_conditions
    rw [h]
    unfold extract_created_coins
    simp [sbcDefault]

/-- C4 witness: concrete Pass B conditions with one spend and one CREATE_COIN. -/
theorem c4_positional_pass_b_join_witness :
    extract_created_coins 0 sbc1
      = [CoinInfo.new (List.replicate 32 3) (List.replicate 32 4) 42]
  ∧ extract_created_coins 5 sbc1 = []
  ∧ extract_created_coins 2 (get_spend_bundle_conditions oracleStub [1]) = [] := by
  refine ⟨?_, ?_, ?_⟩
  · have := (c4_positional_pass_b_join oracleStub sbc1).2.1 0
      { coin_id := List.replicate 32 3
        create_coin := [{ puzzle_hash := List.replicate 32 4, amount := 42 }] } rfl
    simpa [CoinInfo.new] using this
  · exact (c4_positional_pass_b_join oracleStub sbc1).2.2.1 5 (by simp [sbc1])
  · exact (c4_positional_pass_b_join oracleStub sbc1).2.2.2 [1] "stub pass b error" 2 rfl

/-- C5: the handshake sends a WALLET-kind identification with protocol version
0.0.37, server_port 0 and capabilities (1,1),(2,1),(3,1), and succeeds exactly
when the first frame is a parseable HANDSHAKE message whose node_type is
FULL_NODE and whose network_id equals the configured one; every other first
frame (wrong kind, unparseable, close, ping, stream end, socket error) fails. -/
theorem c5_handshake_wallet_and_validation (network_id : String) :
    ((client_handshake network_id).node_type = NodeType.Wallet
      ∧ (client_handshake network_id).protocol_version = "0.0.37"
      ∧ (client_handshake network_id).server_port = 0
      ∧ (client_handshake network_id).capabilities = [(1, "1"), (2, "1"), (3, "1")])
  ∧ ∀ response, handshake_validate network_id response = Except.ok () ↔
      ∃ ph idOpt, response = some (Except.ok (WsMessage.binary
          (BinaryParse.msg ProtocolMessageType.Handshake idOpt (PayloadParse.handshakeData ph))))
        ∧ ph.node_type = NodeType.FullNode ∧ ph.network_id = network_id := by
  refine ⟨⟨rfl, rfl, rfl, rfl⟩, ?_⟩
  intro response
  constructor
  · intro h
    cases response with
    | none => simp [handshake_validate] at h
    | some f =>
      cases f with
      | error e => simp [handshake_validate] at h
      | ok m =>
        cases m with
        | close => simp [handshake_validate] at h
        | ping d => simp [handshake_validate] at h
        | pong d => simp [handshake_validate] at h
        | textOrOther => simp [handshake_validate] at h
        | binary c =>
          cases c with
          | unparseable => simp [handshake_validate] at h
          | msg mt idOpt data =>
            by_cases hmt : mt = ProtocolMessageType.Handshake
            · subst hmt
              cases data with
              | handshakeData ph =>
                by_cases hnt : ph.node_type = NodeType.FullNode
                · by_cases hnid : ph.network_id = network_id
                  · exact ⟨ph, idOpt, rfl, hnt, hnid⟩
                  · simp [handshake_validate, hnt, hnid] at h
                · simp [handshake_validate, hnt] at h
              | handshakeUnparseable => simp [handshake_validate] at h
              | respondBlockData b => simp [handshake_validate] at h
              | respondBlockUnparseable => simp [handshake_validate] at h
              | newPeakWalletData ht => simp [handshake_validate] at h
              | newPeakWalletUnparseable => simp [handshake_validate] at h
              | otherData => simp [handshake_validate] at h
            · simp [handshake_validate, hmt] at h
  · rintro ⟨ph, idOpt, rfl, hnt, hnid⟩
    simp [handshake_validate, hnt, hnid]

/-- C6: any run of non-matching frames before the matching RESPOND_BLOCK or
REJECT_BLOCK is tolerated as long as it is shorter than the 100-frame budget,
and 100 consecutive non-matching frames exhaust the budget and yield the
timeout error. -/
theorem c6_interleaved_frames_capped :
    (∀ pre b idOpt restFrames,
       (∀ f ∈ pre, skippable f = true) → pre.length < MAX_ATTEMPTS →
       request_block_by_height (pre ++ Except.ok (WsMessage.binary
           (BinaryParse.msg ProtocolMessageType.RespondBlock idOpt
             (PayloadParse.respondBlockData b))) :: restFrames)
         = Except.ok b)
  ∧ (∀ pre idOpt d restFrames,
       (∀ f ∈ pre, skippable f = true) → pre.length < MAX_ATTEMPTS →
       request_block_by_height (pre ++ Except.ok (WsMessage.binary
           (BinaryParse.msg ProtocolMessageType.RejectBlock idOpt d)) :: restFrames)
         = Except.error (ChiaError.Protocol "Block request rejected"))
  ∧ (∀ frames, (∀ f ∈ frames, skippable f = true) → MAX_ATTEMPTS ≤ frames.length →
       request_block_by_height frames
         = Except.error (ChiaError.Protocol "Timeout waiting for block response")) := by
  refine ⟨?_, ?_, ?_⟩
  · intro pre b idOpt restFrames hpre hlen
    unfold request_block_by_height
    rw [request_block_recv_skip_run pre hpre MAX_ATTEMPTS (Nat.le_of_lt hlen)]
    obtain ⟨k, hk⟩ := Nat.exists_eq_succ_of_ne_zero (Nat.sub_ne_zero_of_lt hlen)
    rw [hk]
    rfl
  · intro pre idOpt d restFrames hpre hlen
    unfold request_block_by_height
    rw [request_block_recv_skip_run pre hpre MAX_ATTEMPTS (Nat.le_of_lt hlen)]
    obtain ⟨k, hk⟩ := Nat.exists_eq_succ_of_ne_zero (Nat.sub_ne_zero_of_lt hlen)
    rw [hk]
    rfl
  · intro frames hall hlen
    exact request_block_recv_timeout MAX_ATTEMPTS frames hall hlen

/-- C6 witness: 99 pings before the block are tolerated; 100 pings time out. -/
theorem c6_interleaved_frames_capped_witness :
    request_block_by_height (List.replicate 99 pingFrame ++ respondFrame :: [])
      = Except.ok someBlock
  ∧ request_block_by_height (List.replicate 100 pingFrame)
      = Except.error (ChiaError.Protocol "Timeout waiting for block response") := by
  constructor
  · exact c6_interleaved_frames_capped.1 (List.replicate 99 pingFrame) someBlock (some 1) []
      (fun f hf => by rw [List.eq_of_mem_replicate hf]; rfl) (by simp [MAX_ATTEMPTS])
  · exact c6_interleaved_frames_capped.2.2 (List.replicate 100 pingFrame)
      (fun f hf => by rw [List.eq_of_mem_replicate hf]; rfl) (by simp [MAX_ATTEMPTS])

/-- C7 counterexample: with an established stream, a failed block request makes
the session clear its stream, dial a new connection itself (the dial count goes
from 0 to 1) and retry - and here the retry even succeeds, so the session does
not terminate on the failure and does establish a new connection by itself. -/
theorem c7_session_redials_after_failure :
    session_request_block true (Except.ok ()) (Except.ok ())
      (Except.error (ChiaError.Protocol "Block request rejected")) (Except.ok someBlock)
      = (1, Except.ok someBlock) := rfl

/-- C7 as amended: after a failed block request the session re-dials exactly
once and retries the request once; a first-attempt success never re-dials, and
within one call the session establishes at most two connections. -/
theorem c7_session_single_reconnect (connected : Bool)
    (connect1 connect2 : Except ChiaError Unit)
    (req1 req2 : Except ChiaError FullBlock) :
    ((session_request_block connected connect1 connect2 req1 req2).1 ≤ 2)
  ∧ (∀ b, req1 = Except.ok b →
       session_request_block true connect1 connect2 req1 req2 = (0, Except.ok b))
  ∧ (∀ e, req1 = Except.error e → connect2 = Except.ok () →
       session_request_block true connect1 connect2 req1 req2 = (1, req2))
  ∧ (∀ e e2, req1 = Except.error e → connect2 = Except.error e2 →
       session_request_block true connect1 connect2 req1 req2 = (1, Except.error e2)) := by
  refine ⟨?_, ?_, ?_, ?_⟩
  · cases connected <;> cases connect1 <;> cases req1 <;> cases connect2 <;>
      simp [session_request_block]
  · intro b hb
    subst hb
    rfl
  · intro e hb hc
    subst hb
    subst hc
    rfl
  · intro e e2 hb hc
    subst hb
    subst hc
    rfl

/-- C7 witness: a failed first attempt with a failing reconnect propagates the
reconnect error after exactly one self-initiated dial. -/
theorem c7_session_single_reconnect_witness :
    session_request_block true (Except.ok ()) (Except.error (ChiaError.Connection "dial failed"))
      (Except.error (ChiaError.Connection "request failed")) (Except.ok someBlock)
      = (1, Except.error (ChiaError.Connection "dial failed")) :=
  (c7_session_single_reconnect true (Except.ok ())
      (Except.error (ChiaError.Connection "dial failed"))
      (Except.error (ChiaError.Connection "request failed"))
      (Except.ok someBlock)).2.2.2 (ChiaError.Connection "request failed")
      (ChiaError.Connection "dial failed") rfl rfl

/-- C8: both rate limits hold - a session's next recorded request instant is at
least SESSION_MIN_INTERVAL_MS (200 ms) after the previous one (the deficit is
slept); two successive dispatches to the same pool peer are at least
RATE_LIMIT_MS (500 ms) apart because eligibility requires that much elapsed
since last_used and a dispatch stamps last_used; and a peer added at a time at
which Instant::checked_sub succeeds is immediately eligible. -/
theorem c8_rate_limits (last_request_time now t1 t2 : Nat)
    (info info1 info2 : PeerInfo) :
    (last_request_time ≤ now →
       last_request_time + SESSION_MIN_INTERVAL_MS
         ≤ session_next_request_time last_request_time now)
  ∧ (dispatch_to_peer t1 info = some info1 → dispatch_to_peer t2 info1 = some info2 →
       t1 + RATE_LIMIT_MS ≤ t2)
  ∧ (RATE_LIMIT_MS ≤ now → peer_eligible now (add_peer_info now) = true) := by
  refine ⟨?_, ?_, ?_⟩
  · intro h
    simp only [session_next_request_time, SESSION_MIN_INTERVAL_MS]
    split <;> omega
  · intro h1 h2
    obtain ⟨hl1, _⟩ := dispatch_some_last_used h1
    obtain ⟨_, he2⟩ := dispatch_some_last_used h2
    have := eligible_elapsed he2
    rw [hl1] at this
    unfold RATE_LIMIT_MS at this ⊢
    omega
  · intro h
    have hl : (add_peer_info now).last_used = now - RATE_LIMIT_MS := by
      unfold add_peer_info
      simp [h]
    unfold peer_eligible
    rw [hl]
    simp only [Bool.and_eq_true, decide_eq_true_eq]
    refine ⟨rfl, ?_⟩
    unfold RATE_LIMIT_MS at h ⊢
    omega

/-- C8 witness: concrete instants exercising all three properties. -/
theorem c8_rate_limits_witness :
    ((0 : Nat) + SESSION_MIN_INTERVAL_MS ≤ session_next_request_time 0 0)
  ∧ ((500 : Nat) + RATE_LIMIT_MS ≤ 1000)
  ∧ peer_eligible 600 (add_peer_info 600) = true := by
  refine ⟨?_, ?_, ?_⟩
  · exact (c8_rate_limits 0 0 0 0 ⟨0, true, none⟩ ⟨0, true, none⟩ ⟨0, true, none⟩).1
      (by decide)
  · exact (c8_rate_limits 0 0 500 1000 ⟨0, true, none⟩ ⟨500, true, none⟩
      ⟨1000, true, none⟩).2.1 (by decide) (by decide)
  · exact (c8_rate_limits 0 600 0 0 ⟨0, true, none⟩ ⟨0, true, none⟩ ⟨0, true, none⟩).2.2
      (by decide)

/-- C9: the aggregate highest_peak is monotone - every update step either
leaves it unchanged or strictly raises it (and a missing peak only ever becomes
a present one), and over any sequence of per-peer height reports, in any order,
the folded peak never decreases. -/
theorem c9_highest_peak_monotone :
    (∀ cur h, peakLE cur (update_highest_peak cur h))
  ∧ (∀ cur h, update_highest_peak cur h = cur ∨ peakLT cur (update_highest_peak cur h))
  ∧ (∀ h, update_highest_peak none h = some h)
  ∧ (∀ reports cur, peakLE cur (List.foldl update_highest_peak cur reports)) := by
  refine ⟨peakLE_update, ?_, fun h => rfl, ?_⟩
  · intro cur h
    cases cur with
    | none => exact Or.inr trivial
    | some c =>
      by_cases hlt : c < h
      · right
        simp [update_highest_peak, hlt, peakLT]
      · left
        simp [update_highest_peak, hlt]
  · intro reports
    induction reports with
    | nil =>
      intro cur
      cases cur <;> simp [peakLE]
    | cons r reports ih =>
      intro cur
      exact peakLE_trans (peakLE_update cur r) (ih (update_highest_peak cur r))

/-- Helper: if the parent cannot be extracted, the whole quadruple parse is none. -/
theorem parse_single_none_of_parent_none (o : ExternOracle) (cs : Node) (i : Nat)
    (sbc : SpendBundleConditions) (h : extract_parent_coin_info cs = none) :
    parse_single_coin_spend o cs i sbc = none := by
  unfold parse_single_coin_spend
  rw [h]
  rfl

/-- Helper: a parent atom of the wrong length fails extraction. -/
theorem extract_parent_wrong_length (bs : List Nat) (tl : Node) (h : bs.length ≠ 32) :
    extract_parent_coin_info (Node.pair (Node.atom bs) tl) = none := by
  show (if bs.length = 32 then some bs else none) = none
  rw [if_neg h]

/-- C10: a coin-spend quadruple that fails structural extraction is silently
dropped - the walk's result (removals, spends, creations) is exactly that of the
remaining quadruples, with no error; a non-pair element, a non-atom parent and a
parent atom whose length is not 32 all fail extraction; and the Pass B join
index counts only successfully parsed spends, so the j-th parsed spend is joined
with Pass B entry i0 + j regardless of dropped quadruples before it. -/
theorem c10_structural_failures_dropped (o : ExternOracle) (sbc : SpendBundleConditions) :
    (∀ bad tl i, parse_single_coin_spend o bad i sbc = none →
       extract_spends_loop o sbc (Node.pair bad tl) i = extract_spends_loop o sbc tl i)
  ∧ (∀ bs tl i, bs.length ≠ 32 →
       parse_single_coin_spend o (Node.pair (Node.atom bs) tl) i sbc = none)
  ∧ (∀ l r tl i, parse_single_coin_spend o (Node.pair (Node.pair l r) tl) i sbc = none)
  ∧ (∀ bs i, parse_single_coin_spend o (Node.atom bs) i sbc = none)
  ∧ (∀ tl i0 j info, ((extract_spends_loop o sbc tl i0).2.1)[j]? = some info →
       info.created_coins = extract_created_coins (i0 + j) sbc) := by
  refine ⟨?_, ?_, ?_, ?_, extract_spends_loop_created o sbc⟩
  · intro bad tl i h
    simp [extract_spends_loop, h]
  · intro bs tl i h
    exact parse_single_none_of_parent_none o _ i sbc (extract_parent_wrong_length bs tl h)
  · intro l r tl i
    exact parse_single_none_of_parent_none o _ i sbc rfl
  · intro bs i
    exact parse_single_none_of_parent_none o _ i sbc rfl

/-- C10 witness: a quadruple with a 31-byte parent atom is dropped and the walk
over the remaining list is unchanged. -/
theorem c10_structural_failures_dropped_witness :
    parse_single_coin_spend oracleStub badSpendNode 0 sbc1 = none
  ∧ extract_spends_loop oracleStub sbc1 (Node.pair badSpendNode (Node.atom [])) 0
      = extract_spends_loop oracleStub sbc1 (Node.atom []) 0 := by
  have h1 : parse_single_coin_spend oracleStub badSpendNode 0 sbc1 = none :=
    (c10_structural_failures_dropped oracleStub sbc1).2.1 (List.replicate 31 9) (Node.atom [])
      0 (by decide)
  exact ⟨h1, (c10_structural_failures_dropped oracleStub sbc1).1 badSpendNode (Node.atom [])
    0 h1⟩

/-- C3 witness: under the stub oracle (whose generator parse fails), a concrete
non-empty generator yields three empty lists and the enclosing decode of a
concrete block carrying that generator still succeeds. -/
theorem c3_executor_failures_swallowed_witness :
    process_generator_for_coins oracleStub [1, 2, 3] = Except.ok ([], [], [])
  ∧ (parse_full_block oracleStub c3Block).map ParsedBlock.has_transactions_generator
      = Except.ok true
  ∧ (parse_full_block oracleStub c3Block).map ParsedBlock.coin_spends = Except.ok [] := by
  refine ⟨?_, ?_⟩
  · exact (c3_executor_failures_swallowed oracleStub [1, 2, 3]).2.2.1 "stub parse error" rfl
  · exact (c3_executor_failures_swallowed oracleStub [1, 2, 3]).2.2.2.2.2 c3Block [] rfl rfl
      "stub parse error" rfl
